import Mathlib

/-
  Shallow embedding of `src/cloud-function.py`, a Google Cloud Function that
  backs Slack slash commands.

  External collaborators are modelled as oracles:
  * the Slack SDK signature check (`SignatureVerifier(secret).is_valid`) is an
    uninterpreted boolean function of secret, body, timestamp and signature;
  * the two BigQuery queries are uninterpreted functions from the (sanitized)
    resource name to either a list of result rows or a raised exception.

  Python values that the script inspects for truthiness are modelled
  explicitly: optional strings (`None` / `str`) with Python's `or` falling
  through on `None` and on the empty string, and timestamp cells that are
  either absent, a structured datetime (an object with `strftime`), or a
  plain stored value rendered through `str`.
-/

namespace CloudFunction

/-! ## Parameter sanitizer (request_handler, line 114)

`re.sub(r'[^a-zA-Z0-9\-_]', '', parameter).lower()`: drop every character
outside the whitelist `[A-Za-z0-9_-]`, then lower-case.  Character ranges are
expressed through code points: 48-57 = `0`-`9`, 65-90 = `A`-`Z`,
97-122 = `a`-`z`, 45 = `-`, 95 = `_`.  Python's `str.lower` agrees with
ASCII lower-casing on the whitelisted characters, which are the only ones
the lower-casing step ever sees. -/

/-- A character kept by the regex whitelist `[a-zA-Z0-9\-_]`. -/
def allowedChar (c : Char) : Bool :=
  (48 ≤ c.toNat && c.toNat ≤ 57) || (65 ≤ c.toNat && c.toNat ≤ 90) ||
    (97 ≤ c.toNat && c.toNat ≤ 122) || c.toNat == 45 || c.toNat == 95

/-- ASCII lower-casing of one character, as `str.lower` acts on the
whitelisted (pure-ASCII) characters: `A`-`Z` shift by 32, all else fixed. -/
def lowerChar (c : Char) : Char :=
  if 65 ≤ c.toNat ∧ c.toNat ≤ 90 then Char.ofNat (c.toNat + 32) else c

/-- The sanitizer on the underlying character list: filter, then lower-case. -/
def sanitizeList (l : List Char) : List Char :=
  (l.filter allowedChar).map lowerChar

/-- `request_handler` line 114: the sanitized parameter. -/
def sanitize (s : String) : String :=
  String.mk (sanitizeList s.data)

/-- A character of the class `[a-z0-9_-]` that the spec promises for
sanitizer output. -/
def lowerClassChar (c : Char) : Bool :=
  (48 ≤ c.toNat && c.toNat ≤ 57) || (97 ≤ c.toNat && c.toNat ≤ 122) ||
    c.toNat == 45 || c.toNat == 95

lemma lowerChar_spec (c : Char) (h : allowedChar c = true) :
    allowedChar (lowerChar c) = true ∧ lowerChar (lowerChar c) = lowerChar c ∧
      lowerClassChar (lowerChar c) = true := by
  by_cases hAZ : 65 ≤ c.toNat ∧ c.toNat ≤ 90
  · simp only [lowerChar, if_pos hAZ]
    obtain ⟨h1, h2⟩ := hAZ
    generalize c.toNat = n at h1 h2
    interval_cases n <;> exact ⟨by decide, by decide, by decide⟩
  · simp only [lowerChar, if_neg hAZ]
    refine ⟨h, trivial, ?_⟩
    simp only [allowedChar, Bool.or_eq_true, decide_eq_true_eq, Nat.beq_eq_true_eq,
      Bool.and_eq_true] at h
    simp only [lowerClassChar, Bool.or_eq_true, decide_eq_true_eq, Nat.beq_eq_true_eq,
      Bool.and_eq_true]
    omega

lemma sanitizeList_mem {l : List Char} {c : Char} (hc : c ∈ sanitizeList l) :
    allowedChar c = true ∧ lowerChar c = c ∧ lowerClassChar c = true := by
  simp only [sanitizeList, List.mem_map, List.mem_filter] at hc
  obtain ⟨a, ⟨_, ha⟩, rfl⟩ := hc
  obtain ⟨g1, g2, g3⟩ := lowerChar_spec a ha
  exact ⟨g1, g2, g3⟩

lemma sanitizeList_fixed {l : List Char}
    (h : ∀ c ∈ l, allowedChar c = true ∧ lowerChar c = c) :
    sanitizeList l = l := by
  induction l with
  | nil => rfl
  | cons c l ih =>
      obtain ⟨h1, h2⟩ := h c (List.mem_cons_self c l)
      simp only [sanitizeList, List.filter_cons, h1, if_pos, List.map_cons, h2]
      exact congrArg (c :: ·) (ih fun x hx => h x (List.mem_cons_of_mem c hx))

lemma sanitizeList_idem (l : List Char) :
    sanitizeList (sanitizeList l) = sanitizeList l :=
  sanitizeList_fixed fun _ hc => ⟨(sanitizeList_mem hc).1, (sanitizeList_mem hc).2.1⟩

/-! ## Python value helpers -/

/-- Python `x or default` on an optional string cell: `None` and the empty
string are falsy and fall through to the default. -/
def pyOr (o : Option String) (d : String) : String :=
  match o with
  | none => d
  | some s => if s = "" then d else s

/-- A stored timestamp cell as the script inspects it: absent (`None`), a
structured datetime (an object with `strftime`, always truthy, carrying
day/month/year and hour/minute), or any other stored value represented by
its `str` rendering. -/
inductive PyTime where
  | absent : PyTime
  | dt (day month year hour minute : Nat) : PyTime
  | repr (s : String) : PyTime
deriving DecidableEq

/-- Zero-pad a field to two digits, as `strftime` does for `%d %m %H %M`. -/
def pad2 (n : Nat) : String :=
  if n < 10 then "0" ++ toString n else toString n

/-- Zero-pad the year to four digits (`%Y`). -/
def pad4 (n : Nat) : String :=
  if n < 10 then "000" ++ toString n
  else if n < 100 then "00" ++ toString n
  else if n < 1000 then "0" ++ toString n
  else toString n

/-- Timestamp rendering duplicated at `get_resource_info` lines 206-210 and
`check_resource_status` lines 295-299: start from `"Not available"`; when the
cell is truthy and has `strftime`, format `"%d-%m-%Y at %H:%M UTC"`; when
truthy without `strftime`, use `str(value)`.  A stored empty string is falsy
and keeps the default. -/
def formatTimestamp (t : PyTime) : String :=
  match t with
  | .absent => "Not available"
  | .dt d m y hh mm =>
      pad2 d ++ "-" ++ pad2 m ++ "-" ++ pad4 y ++ " at " ++ pad2 hh ++ ":" ++ pad2 mm ++ " UTC"
  | .repr s => if s = "" then "Not available" else s

/-! ## Slack payloads and HTTP responses -/

/-- A button of an `actions` block (`get_resource_info` line 230). -/
structure ButtonEl where
  label : String
  url : String
deriving DecidableEq

/-- One Slack block: `section`, `actions` or `divider`. -/
inductive Block where
  | section (text : String) : Block
  | actions (elements : List ButtonEl) : Block
  | divider : Block
deriving DecidableEq

/-- A chat payload returned to Slack: either `{response_type, text}` or
`{response_type, blocks}`. -/
inductive SlackMessage where
  | textMsg (response_type text : String) : SlackMessage
  | blocksMsg (response_type : String) (blocks : List Block) : SlackMessage
deriving DecidableEq

/-- The `response_type` field of a chat payload. -/
def SlackMessage.responseType : SlackMessage → String
  | .textMsg rt _ => rt
  | .blocksMsg rt _ => rt

/-- What the Cloud Function hands back to the HTTP layer: a chat payload
(JSON, HTTP 200) or a plain-text body with an explicit status code. -/
inductive HandlerResponse where
  | chat (payload : SlackMessage) : HandlerResponse
  | plain (body : String) (status : Nat) : HandlerResponse
deriving DecidableEq

/-- A raised Python exception, split the way `request_handler` catches them:
`ValueError` (signature/validation) versus everything else. -/
inductive PyExc where
  | valueError (msg : String) : PyExc
  | genericError (msg : String) : PyExc
deriving DecidableEq

/-! ## Resource-info lookup and formatter (`get_resource_info`) -/

/-- One row of the instances query (lines 166-182).  String cells are
optional; `instance_console_url` is the value of the `CONCAT` column. -/
structure ResourceRow where
  instance_id : Option String
  instance_name : Option String
  project_id : Option String
  status : Option String
  zone : Option String
  machine_type : Option String
  creation_timestamp : PyTime
  instance_console_url : Option String
deriving DecidableEq

/-- The multi-line section text built for one row (lines 213-223), with
`or 'N/A'` fallbacks and the shared timestamp rendering. -/
def resourceMessage (row : ResourceRow) : String :=
  "ℹ️ Information for *" ++ pyOr row.instance_name "N/A" ++ "* (ID: *" ++
    pyOr row.instance_id "N/A" ++ "*):\n" ++
  "   • Project: *" ++ pyOr row.project_id "N/A" ++ "*\n" ++
  "   • Status: *" ++ pyOr row.status "N/A" ++ "*\n" ++
  "   • Zone: *" ++ pyOr row.zone "N/A" ++ "*\n" ++
  "   • Machine Type: *" ++ pyOr row.machine_type "N/A" ++ "*\n" ++
  "   • Created/Updated: _" ++ formatTimestamp row.creation_timestamp ++ "_"

/-- Truthiness of `row.instance_console_url` (line 228). -/
def consoleUrlTruthy (row : ResourceRow) : Bool :=
  match row.instance_console_url with
  | none => false
  | some u => u ≠ ""

/-- One iteration of the block-building loop (lines 204-242): append the
section block, the actions block when the console URL is truthy, and a
divider. -/
def rowBlocks (row : ResourceRow) : List Block :=
  [Block.section (resourceMessage row)] ++
    (if consoleUrlTruthy row then
      [Block.actions [⟨"🔗 Open in GCP Console", (row.instance_console_url).getD ""⟩]]
    else []) ++
    [Block.divider]

/-- `get_resource_info` (lines 158-251) applied to the rows the BigQuery
query returned: no rows gives the ephemeral not-found text; otherwise build
the blocks row by row and pop a trailing divider. -/
def get_resource_info (resource_name : String) (rows : List ResourceRow) : SlackMessage :=
  if rows.isEmpty then
    .textMsg "ephemeral" ("No information found for resource: *" ++ resource_name ++ "*.")
  else
    let blocks := rows.foldl (fun acc row => acc ++ rowBlocks row) []
    let final := if blocks.getLast? = some Block.divider then blocks.dropLast else blocks
    .blocksMsg "ephemeral" final

/-! ## Status-check lookup and formatter (`check_resource_status`) -/

/-- One row of the status query (lines 262-271).  `current_status` is the
stored status value (`str` is the identity on the string cells the query
yields); `details` is optional. -/
structure StatusRow where
  item_name : Option String
  current_status : Option String
  details : Option String
  last_checked : PyTime
deriving DecidableEq

/-- `str(row.current_status).lower() if row.current_status is not None else
"unknown"` (line 293), with ASCII lower-casing. -/
def statusValue (row : StatusRow) : String :=
  match row.current_status with
  | none => "unknown"
  | some s => String.mk (s.data.map lowerChar)

/-- Python substring membership `needle in hay`. -/
def strContains (hay needle : String) : Bool :=
  (List.range (hay.data.length + 1)).any
    (fun i => needle.data = (hay.data.drop i).take needle.data.length)

/-- The tier selection of lines 303-311: the glyph and headline message
chosen by the `if`/`elif`/`else` chain over the lowered status value. -/
def statusEmojiMessage (resource_name : String) (row : StatusRow) : String × String :=
  let sv := statusValue row
  let shown := pyOr row.item_name resource_name
  let cur := pyOr row.current_status "N/A"
  if strContains sv "active" || strContains sv "ok" || strContains sv "complete" then
    ("✅", "Resource *" ++ shown ++ "* has a favorable status: *" ++ cur ++ "*.")
  else if strContains sv "pending" || strContains sv "in progress" then
    ("⏳", "Resource *" ++ shown ++ "* has status: *" ++ cur ++ "*.")
  else
    ("❌", "Resource *" ++ shown ++ "* requires attention. Status: *" ++ cur ++ "*.")

/-- `check_resource_status` (lines 254-322) applied to the rows the BigQuery
query returned (`LIMIT 1`, the script uses `rows[0]`). -/
def check_resource_status (resource_name : String) (rows : List StatusRow) : SlackMessage :=
  match rows with
  | [] =>
      .textMsg "ephemeral"
        ("❓ Resource *" ++ resource_name ++ "* was not found for status check.")
  | row :: _ =>
      let em := statusEmojiMessage resource_name row
      .textMsg "ephemeral"
        (em.1 ++ " " ++ em.2 ++ "\n" ++
          "   • Details: _" ++ pyOr row.details "No additional details." ++ "_\n" ++
          "   • Last checked: _" ++ formatTimestamp row.last_checked ++ "_")

/-! ## External oracles, signature verification, routing, request handling -/

/-- The process environment: `os.environ.get("SLACK_SIGNING_SECRET")`. -/
structure Env where
  slackSigningSecret : Option String

/-- `if not slack_signing_secret` (line 330): absent or empty. -/
def secretMissing (env : Env) : Bool :=
  match env.slackSigningSecret with
  | none => true
  | some s => s = ""

/-- The external collaborators: the Slack SDK validity check (secret, body,
timestamp, signature) and the two BigQuery queries, which either return the
matching rows or raise. -/
structure Backend where
  isValid : String → String → String → String → Bool
  infoRows : String → Except PyExc (List ResourceRow)
  statusRows : String → Except PyExc (List StatusRow)

/-- An inbound HTTP request as the script reads it: the `Content-Type`
header, the two Slack headers (absent headers default to `''` via
`headers.get(..., '')`), the raw body, and the two form fields
(`form.get(..., '')`). -/
structure SlackRequest where
  contentType : Option String
  slackTimestamp : Option String
  slackSignature : Option String
  body : String
  formCommand : Option String
  formText : Option String

/-- `verify_slack_signature` (lines 324-351): raise `ValueError` when the
secret is missing or empty, otherwise consult the SDK verifier and raise
`ValueError` on mismatch. -/
def verify_slack_signature (b : Backend) (env : Env) (req : SlackRequest) :
    Except PyExc Unit :=
  if secretMissing env then
    .error (.valueError
      "Server configuration does not include Slack signing secret. Verification skipped (INSECURE).")
  else if b.isValid (env.slackSigningSecret.getD "") req.body
      (req.slackTimestamp.getD "") (req.slackSignature.getD "") then
    .ok ()
  else
    .error (.valueError "Invalid Slack signature.")

/-- `menu_controller` (lines 137-156): exact-string dispatch; unknown
commands return the ephemeral not-recognized payload.  Exceptions raised by
the BigQuery client inside the two handlers propagate as `.error`. -/
def menu_controller (b : Backend) (command parameter : String) :
    Except PyExc SlackMessage :=
  if command = "/getinfo" then
    (b.infoRows parameter).map (get_resource_info parameter)
  else if command = "/checkstatus" then
    (b.statusRows parameter).map (check_resource_status parameter)
  else
    .ok (.textMsg "ephemeral" ("Command '" ++ command ++ "' not recognized."))

/-- The expected `Content-Type` value (line 89). -/
def formContentType : String := "application/x-www-form-urlencoded"

/-- The plain-text rejection body of line 121. -/
def wrongContentTypeBody : String :=
  "This request does not appear to be from Slack (incorrect Content-Type)."

/-- Python `str.strip()` with no argument: drop leading and trailing
whitespace. -/
def pyStrip (s : String) : String :=
  String.mk (((s.data.dropWhile Char.isWhitespace).reverse.dropWhile
    Char.isWhitespace).reverse)

/-- Python `str.split()` with no argument: split on whitespace runs,
discarding empty pieces. -/
def pySplit (s : String) : List String :=
  ((s.data.splitOnP Char.isWhitespace).filter (fun t => t ≠ [])).map String.mk

/-- The two `except` clauses of `request_handler` (lines 123-135):
`ValueError` yields the `Validation Error:` payload, anything else the
generic apology. -/
def handleExc : PyExc → HandlerResponse
  | .valueError msg =>
      .chat (.textMsg "ephemeral" ("Validation Error: " ++ msg))
  | .genericError _ =>
      .chat (.textMsg "ephemeral"
        "Sorry, an error occurred while processing your request. Please try again later.")

/-- `request_handler` (lines 82-135): check the `Content-Type`, verify the
signature, strip and validate the form fields, sanitize the parameter, and
route; exceptions are caught by the two `except` clauses. -/
def request_handler (b : Backend) (env : Env) (req : SlackRequest) :
    HandlerResponse :=
  if req.contentType = some formContentType then
    match verify_slack_signature b env req with
    | .error e => handleExc e
    | .ok _ =>
        let command := pyStrip (req.formCommand.getD "")
        let parameter := pyStrip (req.formText.getD "")
        if command = "" then
          .chat (.textMsg "ephemeral" "Error: No command was provided.")
        else if parameter = "" ∨ (pySplit parameter).length > 1 then
          .chat (.textMsg "ephemeral"
            ("Error: A single parameter was expected. Example: " ++ command ++ " my-resource"))
        else
          match menu_controller b command (sanitize parameter) with
          | .ok m => .chat m
          | .error e => handleExc e
  else
    .plain wrongContentTypeBody 400

/-! ## Helper lemmas -/

lemma foldl_append_blocks (rows : List ResourceRow) (acc : List Block) :
    rows.foldl (fun a r => a ++ rowBlocks r) acc = acc ++ (rows.map rowBlocks).flatten := by
  induction rows generalizing acc with
  | nil => simp
  | cons r rs ih =>
      simp only [List.foldl_cons, List.map_cons, List.flatten_cons, ih, List.append_assoc]

lemma rowBlocks_decomp (row : ResourceRow) :
    ∃ c, rowBlocks row = c ++ [Block.divider] ∧ c ≠ [] ∧
      c.getLast? ≠ some Block.divider := by
  by_cases h : consoleUrlTruthy row = true
  · refine ⟨[Block.section (resourceMessage row)] ++
      [Block.actions [⟨"🔗 Open in GCP Console", row.instance_console_url.getD ""⟩]],
      ?_, by simp, ?_⟩
    · simp [rowBlocks, h]
    · rw [List.getLast?_concat]
      simp
  · refine ⟨[Block.section (resourceMessage row)], ?_, by simp, by simp⟩
    simp [rowBlocks, h]

lemma flatten_rowBlocks_decomp (rows : List ResourceRow) (h : rows ≠ []) :
    ∃ c, (rows.map rowBlocks).flatten = c ++ [Block.divider] ∧ c ≠ [] ∧
      c.getLast? ≠ some Block.divider := by
  induction rows with
  | nil => exact absurd rfl h
  | cons r rs ih =>
      cases rs with
      | nil =>
          obtain ⟨c, hc, hne, hlast⟩ := rowBlocks_decomp r
          exact ⟨c, by simp [hc], hne, hlast⟩
      | cons r2 rs2 =>
          obtain ⟨c, hc, hne, hlast⟩ := ih (by simp)
          refine ⟨rowBlocks r ++ c, ?_,
            fun hx => hne (List.append_eq_nil.mp hx).2, ?_⟩
          · rw [List.map_cons, List.flatten_cons, hc, List.append_assoc]
          · obtain ⟨y, hy⟩ : ∃ y, c.getLast? = some y := by
              cases hcl : c.getLast? with
              | none => exact absurd (List.getLast?_eq_none_iff.mp hcl) hne
              | some y => exact ⟨y, rfl⟩
            rw [List.getLast?_append, hy]
            rw [hy] at hlast
            simpa using hlast

lemma request_handler_plain_inv (b : Backend) (env : Env) (req : SlackRequest)
    (body : String) (code : Nat)
    (hres : request_handler b env req = .plain body code) :
    body = wrongContentTypeBody ∧ code = 400 ∧
      req.contentType ≠ some formContentType := by
  unfold request_handler at hres
  by_cases hct : req.contentType = some formContentType
  · rw [if_pos hct] at hres
    exfalso
    cases hv : verify_slack_signature b env req with
    | error e =>
        rw [hv] at hres
        cases e <;> exact absurd hres (by simp [handleExc])
    | ok u =>
        rw [hv] at hres
        dsimp only at hres
        by_cases h1 : pyStrip (req.formCommand.getD "") = ""
        · rw [if_pos h1] at hres
          exact absurd hres (by simp)
        · rw [if_neg h1] at hres
          by_cases h2 : pyStrip (req.formText.getD "") = "" ∨
              (pySplit (pyStrip (req.formText.getD ""))).length > 1
          · rw [if_pos h2] at hres
            exact absurd hres (by simp)
          · rw [if_neg h2] at hres
            cases hm : menu_controller b (pyStrip (req.formCommand.getD ""))
                (sanitize (pyStrip (req.formText.getD ""))) with
            | ok m =>
                rw [hm] at hres
                exact absurd hres (by simp)
            | error e =>
                rw [hm] at hres
                cases e <;> exact absurd hres (by simp [handleExc])
  · rw [if_neg hct] at hres
    injection hres with hb hc
    exact ⟨hb.symm, hc.symm, hct⟩

/-! ## Claim theorems -/

/-- C2: the sanitizer (`request_handler` line 114) only emits characters of
the class `[a-z0-9_-]`, and applying it twice equals applying it once. -/
theorem sanitize_lower_class_and_idem (x : String) :
    (∀ c ∈ (sanitize x).data, lowerClassChar c = true) ∧
      sanitize (sanitize x) = sanitize x := by
  constructor
  · intro c hc
    have hm : c ∈ sanitizeList x.data := by simpa [sanitize] using hc
    exact (sanitizeList_mem hm).2.2
  · show String.mk (sanitizeList (String.mk (sanitizeList x.data)).data) =
      String.mk (sanitizeList x.data)
    exact congrArg String.mk (sanitizeList_idem x.data)

/-- Witness for C2 at the concrete raw parameter `"Ab c!"`. -/
theorem sanitize_lower_class_and_idem_witness :
    lowerClassChar 'a' = true ∧ sanitize (sanitize "Ab c!") = sanitize "Ab c!" :=
  ⟨(sanitize_lower_class_and_idem "Ab c!").1 'a' (by decide),
    (sanitize_lower_class_and_idem "Ab c!").2⟩

/-- C3: `get_resource_info` returns the ephemeral not-found text naming the
resource when no row matches; for a non-empty row list it returns blocks
built row by row (section, actions only when `console_url` is truthy, then a
divider) with the trailing divider removed, so the last block is never a
divider. -/
theorem get_resource_info_shape (name : String) (rows : List ResourceRow) :
    (rows = [] → get_resource_info name rows =
      .textMsg "ephemeral" ("No information found for resource: *" ++ name ++ "*.")) ∧
    (rows ≠ [] →
      get_resource_info name rows =
        .blocksMsg "ephemeral" ((rows.map rowBlocks).flatten.dropLast) ∧
      ((rows.map rowBlocks).flatten.dropLast).getLast? ≠ some Block.divider) := by
  constructor
  · rintro rfl; rfl
  · intro h
    obtain ⟨c, hc, hne, hlast⟩ := flatten_rowBlocks_decomp rows h
    have hfold : rows.foldl (fun a r => a ++ rowBlocks r) [] =
        (rows.map rowBlocks).flatten := by
      simpa using foldl_append_blocks rows []
    have hempty : ¬ (rows.isEmpty = true) := by simpa [List.isEmpty_iff] using h
    have hlastq : ((rows.map rowBlocks).flatten).getLast? = some Block.divider := by
      rw [hc]; exact List.getLast?_concat _
    have hdrop : ((rows.map rowBlocks).flatten).dropLast = c := by
      rw [hc]; exact List.dropLast_concat
    constructor
    · unfold get_resource_info
      rw [if_neg hempty]
      show SlackMessage.blocksMsg "ephemeral"
          (if (rows.foldl (fun a r => a ++ rowBlocks r) []).getLast? = some Block.divider
           then (rows.foldl (fun a r => a ++ rowBlocks r) []).dropLast
           else rows.foldl (fun a r => a ++ rowBlocks r) []) = _
      rw [hfold, if_pos hlastq]
    · rw [hdrop]
      exact hlast

/-- Witness for C3: the empty result and a concrete single row whose console
URL is set. -/
theorem get_resource_info_shape_witness :
    get_resource_info "vm1" [] =
      .textMsg "ephemeral" "No information found for resource: *vm1*." ∧
    get_resource_info "vm1"
        [⟨some "id1", some "vm1", some "proj", some "RUNNING", some "z1",
          some "n1", PyTime.absent, some "u1"⟩] =
      .blocksMsg "ephemeral"
        (([(⟨some "id1", some "vm1", some "proj", some "RUNNING", some "z1",
            some "n1", PyTime.absent, some "u1"⟩ : ResourceRow)].map rowBlocks).flatten.dropLast) :=
  ⟨(get_resource_info_shape "vm1" []).1 rfl,
    ((get_resource_info_shape "vm1" _).2 (by simp)).1⟩

/-- C4: the status formatter classifies `current_status` by case-insensitive
substring match: `"Active"` selects the favorable tier (check-mark glyph),
`"Pending Review"` the pending tier (hourglass glyph), `"Failed"` the
unfavorable tier (cross glyph). -/
theorem check_resource_status_tiers (name : String) (row : StatusRow) :
    (row.current_status = some "Active" →
      check_resource_status name [row] =
        .textMsg "ephemeral"
          ("✅" ++ " " ++
            ("Resource *" ++ pyOr row.item_name name ++
              "* has a favorable status: *" ++ "Active" ++ "*.") ++ "\n" ++
            "   • Details: _" ++ pyOr row.details "No additional details." ++ "_\n" ++
            "   • Last checked: _" ++ formatTimestamp row.last_checked ++ "_")) ∧
    (row.current_status = some "Pending Review" →
      check_resource_status name [row] =
        .textMsg "ephemeral"
          ("⏳" ++ " " ++
            ("Resource *" ++ pyOr row.item_name name ++
              "* has status: *" ++ "Pending Review" ++ "*.") ++ "\n" ++
            "   • Details: _" ++ pyOr row.details "No additional details." ++ "_\n" ++
            "   • Last checked: _" ++ formatTimestamp row.last_checked ++ "_")) ∧
    (row.current_status = some "Failed" →
      check_resource_status name [row] =
        .textMsg "ephemeral"
          ("❌" ++ " " ++
            ("Resource *" ++ pyOr row.item_name name ++
              "* requires attention. Status: *" ++ "Failed" ++ "*.") ++ "\n" ++
            "   • Details: _" ++ pyOr row.details "No additional details." ++ "_\n" ++
            "   • Last checked: _" ++ formatTimestamp row.last_checked ++ "_")) := by
  obtain ⟨iname, cstat, det, lch⟩ := row
  refine ⟨fun h => ?_, fun h => ?_, fun h => ?_⟩ <;>
    · have h' : cstat = _ := h
      subst h'
      rfl

/-- Witness for C4 at three concrete status records. -/
theorem check_resource_status_tiers_witness :
    check_resource_status "db01" [⟨some "db01", some "Active", none, PyTime.absent⟩] =
      .textMsg "ephemeral"
        ("✅" ++ " " ++
          ("Resource *" ++ pyOr (some "db01") "db01" ++
            "* has a favorable status: *" ++ "Active" ++ "*.") ++ "\n" ++
          "   • Details: _" ++ pyOr none "No additional details." ++ "_\n" ++
          "   • Last checked: _" ++ formatTimestamp PyTime.absent ++ "_") ∧
    check_resource_status "db01" [⟨some "db01", some "Pending Review", none, PyTime.absent⟩] =
      .textMsg "ephemeral"
        ("⏳" ++ " " ++
          ("Resource *" ++ pyOr (some "db01") "db01" ++
            "* has status: *" ++ "Pending Review" ++ "*.") ++ "\n" ++
          "   • Details: _" ++ pyOr none "No additional details." ++ "_\n" ++
          "   • Last checked: _" ++ formatTimestamp PyTime.absent ++ "_") ∧
    check_resource_status "db01" [⟨some "db01", some "Failed", none, PyTime.absent⟩] =
      .textMsg "ephemeral"
        ("❌" ++ " " ++
          ("Resource *" ++ pyOr (some "db01") "db01" ++
            "* requires attention. Status: *" ++ "Failed" ++ "*.") ++ "\n" ++
          "   • Details: _" ++ pyOr none "No additional details." ++ "_\n" ++
          "   • Last checked: _" ++ formatTimestamp PyTime.absent ++ "_") :=
  ⟨(check_resource_status_tiers "db01" _).1 rfl,
    (check_resource_status_tiers "db01" _).2.1 rfl,
    (check_resource_status_tiers "db01" _).2.2 rfl⟩

/-- C1: with the signing secret absent or empty and a form-encoded request,
`request_handler` answers with the ephemeral `Validation Error:` payload
carrying the missing-secret reason, and the outcome is the same for every
backend — no routing and no lookup happens. -/
theorem missing_secret_rejected (b : Backend) (env : Env) (req : SlackRequest)
    (hs : secretMissing env = true)
    (hct : req.contentType = some formContentType) :
    request_handler b env req =
      .chat (.textMsg "ephemeral"
        ("Validation Error: " ++
          "Server configuration does not include Slack signing secret. Verification skipped (INSECURE).")) ∧
    (∃ rest, ("Validation Error: " ++
        "Server configuration does not include Slack signing secret. Verification skipped (INSECURE).") =
      "Validation Error:" ++ rest) ∧
    ∀ b2 : Backend, request_handler b2 env req = request_handler b env req := by
  have key : ∀ b0 : Backend, request_handler b0 env req =
      .chat (.textMsg "ephemeral"
        ("Validation Error: " ++
          "Server configuration does not include Slack signing secret. Verification skipped (INSECURE).")) := by
    intro b0
    unfold request_handler
    rw [if_pos hct]
    unfold verify_slack_signature
    rw [if_pos hs]
    rfl
  exact ⟨key b, ⟨_, by rfl⟩, fun b2 => (key b2).trans (key b).symm⟩

/-- Witness for C1 at a concrete backend, empty environment and request. -/
theorem missing_secret_rejected_witness :
    request_handler
        ⟨fun _ _ _ _ => true, fun _ => .ok [], fun _ => .ok []⟩ ⟨none⟩
        ⟨some formContentType, none, none, "", some "/getinfo", some "vm1"⟩ =
      .chat (.textMsg "ephemeral"
        ("Validation Error: " ++
          "Server configuration does not include Slack signing secret. Verification skipped (INSECURE).")) :=
  (missing_secret_rejected
    ⟨fun _ _ _ _ => true, fun _ => .ok [], fun _ => .ok []⟩ ⟨none⟩
    ⟨some formContentType, none, none, "", some "/getinfo", some "vm1"⟩
    rfl rfl).1

/-- C5: the router answers every command other than `/getinfo` and
`/checkstatus` with the ephemeral not-recognized payload and raises no
exception, whatever the parameter; and `request_handler` never emits a
plain HTTP status other than 400. -/
theorem unknown_command_soft (b : Backend) (env : Env) (req : SlackRequest)
    (cmd param : String) (h1 : cmd ≠ "/getinfo") (h2 : cmd ≠ "/checkstatus") :
    menu_controller b cmd param =
      .ok (.textMsg "ephemeral" ("Command '" ++ cmd ++ "' not recognized.")) ∧
    ∀ body code, request_handler b env req = .plain body code → code = 400 := by
  constructor
  · unfold menu_controller
    rw [if_neg h1, if_neg h2]
  · intro body code hres
    exact (request_handler_plain_inv b env req body code hres).2.1

/-- Witness for C5: the unknown command `/foo` with parameter `bar`. -/
theorem unknown_command_soft_witness :
    menu_controller ⟨fun _ _ _ _ => true, fun _ => .ok [], fun _ => .ok []⟩
        "/foo" "bar" =
      .ok (.textMsg "ephemeral" ("Command '" ++ "/foo" ++ "' not recognized.")) :=
  (unknown_command_soft ⟨fun _ _ _ _ => true, fun _ => .ok [], fun _ => .ok []⟩
    ⟨none⟩ ⟨none, none, none, "", none, none⟩ "/foo" "bar"
    (by decide) (by decide)).1

/-- C6: on an authenticated form-encoded request with a command, an empty or
multi-token parameter is rejected with the usage example naming the command,
and the response does not depend on the lookup backends. -/
theorem parameter_validation_guard (b : Backend) (env : Env) (req : SlackRequest)
    (hct : req.contentType = some formContentType)
    (hv : verify_slack_signature b env req = .ok ())
    (hcmd : pyStrip (req.formCommand.getD "") ≠ "")
    (hp : pyStrip (req.formText.getD "") = "" ∨
      (pySplit (pyStrip (req.formText.getD ""))).length > 1) :
    request_handler b env req =
      .chat (.textMsg "ephemeral"
        ("Error: A single parameter was expected. Example: " ++
          pyStrip (req.formCommand.getD "") ++ " my-resource")) ∧
    ∀ b2 : Backend, b2.isValid = b.isValid →
      request_handler b2 env req = request_handler b env req := by
  have key : ∀ b0 : Backend, verify_slack_signature b0 env req = .ok () →
      request_handler b0 env req =
        .chat (.textMsg "ephemeral"
          ("Error: A single parameter was expected. Example: " ++
            pyStrip (req.formCommand.getD "") ++ " my-resource")) := by
    intro b0 hv0
    unfold request_handler
    rw [if_pos hct, hv0]
    dsimp only
    rw [if_neg hcmd, if_pos hp]
  refine ⟨key b hv, fun b2 hiv => ?_⟩
  have hv2 : verify_slack_signature b2 env req = .ok () := by
    unfold verify_slack_signature at hv ⊢
    rw [hiv]
    exact hv
  rw [key b2 hv2, key b hv]

/-- Witness for C6: a verified request carrying the two-token parameter
`"foo bar"` for `/getinfo`. -/
theorem parameter_validation_guard_witness :
    request_handler ⟨fun _ _ _ _ => true, fun _ => .ok [], fun _ => .ok []⟩
        ⟨some "sek"⟩
        ⟨some formContentType, some "123", some "sig", "body",
          some "/getinfo", some "foo bar"⟩ =
      .chat (.textMsg "ephemeral"
        ("Error: A single parameter was expected. Example: " ++
          pyStrip ((some "/getinfo" : Option String).getD "") ++ " my-resource")) :=
  (parameter_validation_guard
    ⟨fun _ _ _ _ => true, fun _ => .ok [], fun _ => .ok []⟩ ⟨some "sek"⟩
    ⟨some formContentType, some "123", some "sig", "body",
      some "/getinfo", some "foo bar"⟩
    rfl rfl (by decide) (by decide)).1

/-- C7: any request whose `Content-Type` is not
`application/x-www-form-urlencoded` gets exactly HTTP 400 with the plain-text
body, and that is the only path producing a non-chat response. -/
theorem wrong_content_type_400 (b : Backend) (env : Env) (req : SlackRequest) :
    (req.contentType ≠ some formContentType →
      request_handler b env req = .plain wrongContentTypeBody 400) ∧
    (∀ body code, request_handler b env req = .plain body code →
      body = wrongContentTypeBody ∧ code = 400 ∧
        req.contentType ≠ some formContentType) := by
  constructor
  · intro h
    unfold request_handler
    rw [if_neg h]
  · intro body code hres
    exact request_handler_plain_inv b env req body code hres

/-- Witness for C7: a request with a JSON `Content-Type`. -/
theorem wrong_content_type_400_witness :
    request_handler ⟨fun _ _ _ _ => true, fun _ => .ok [], fun _ => .ok []⟩
        ⟨some "sek"⟩
        ⟨some "application/json", none, none, "", some "/getinfo", some "vm1"⟩ =
      .plain wrongContentTypeBody 400 :=
  (wrong_content_type_400
    ⟨fun _ _ _ _ => true, fun _ => .ok [], fun _ => .ok []⟩ ⟨some "sek"⟩
    ⟨some "application/json", none, none, "", some "/getinfo", some "vm1"⟩).1
    (by simp [formContentType])

lemma handleExc_responseType (e : PyExc) (m : SlackMessage)
    (h : handleExc e = .chat m) : m.responseType = "ephemeral" := by
  cases e with
  | valueError msg => injection h with h'; rw [← h']; rfl
  | genericError msg => injection h with h'; rw [← h']; rfl

lemma get_resource_info_responseType (n : String) (rows : List ResourceRow) :
    (get_resource_info n rows).responseType = "ephemeral" := by
  unfold get_resource_info
  split <;> rfl

lemma check_resource_status_responseType (n : String) (rows : List StatusRow) :
    (check_resource_status n rows).responseType = "ephemeral" := by
  cases rows <;> rfl

lemma menu_controller_ok_responseType (b : Backend) (c p : String)
    (m : SlackMessage) (h : menu_controller b c p = .ok m) :
    m.responseType = "ephemeral" := by
  unfold menu_controller at h
  by_cases h1 : c = "/getinfo"
  · rw [if_pos h1] at h
    cases hr : b.infoRows p with
    | ok rows =>
        rw [hr] at h
        simp only [Except.map] at h
        injection h with h'
        rw [← h']
        exact get_resource_info_responseType p rows
    | error e =>
        rw [hr] at h
        simp only [Except.map] at h
        exact absurd h (by simp)
  · rw [if_neg h1] at h
    by_cases h2 : c = "/checkstatus"
    · rw [if_pos h2] at h
      cases hr : b.statusRows p with
      | ok rows =>
          rw [hr] at h
          simp only [Except.map] at h
          injection h with h'
          rw [← h']
          exact check_resource_status_responseType p rows
      | error e =>
          rw [hr] at h
          simp only [Except.map] at h
          exact absurd h (by simp)
    · rw [if_neg h2] at h
      injection h with h'
      rw [← h']
      rfl

/-- C9: every chat payload the handler returns, on any path, has
`response_type = "ephemeral"`; no reachable path produces an `in_channel`
response. -/
theorem responses_always_ephemeral (b : Backend) (env : Env) (req : SlackRequest)
    (m : SlackMessage) (h : request_handler b env req = .chat m) :
    m.responseType = "ephemeral" := by
  unfold request_handler at h
  by_cases hct : req.contentType = some formContentType
  · rw [if_pos hct] at h
    cases hv : verify_slack_signature b env req with
    | error e =>
        rw [hv] at h
        exact handleExc_responseType e m h
    | ok u =>
        rw [hv] at h
        dsimp only at h
        by_cases h1 : pyStrip (req.formCommand.getD "") = ""
        · rw [if_pos h1] at h
          injection h with h'
          rw [← h']
          rfl
        · rw [if_neg h1] at h
          by_cases h2 : pyStrip (req.formText.getD "") = "" ∨
              (pySplit (pyStrip (req.formText.getD ""))).length > 1
          · rw [if_pos h2] at h
            injection h with h'
            rw [← h']
            rfl
          · rw [if_neg h2] at h
            cases hm : menu_controller b (pyStrip (req.formCommand.getD ""))
                (sanitize (pyStrip (req.formText.getD ""))) with
            | ok mm =>
                rw [hm] at h
                injection h with h'
                rw [← h']
                exact menu_controller_ok_responseType b _ _ mm hm
            | error e =>
                rw [hm] at h
                exact handleExc_responseType e m h
  · rw [if_neg hct] at h
    exact absurd h (by simp)

/-- Witness for C9 at the concrete missing-secret rejection payload. -/
theorem responses_always_ephemeral_witness :
    SlackMessage.responseType
        (.textMsg "ephemeral"
          ("Validation Error: " ++
            "Server configuration does not include Slack signing secret. Verification skipped (INSECURE).")) =
      "ephemeral" :=
  responses_always_ephemeral
    ⟨fun _ _ _ _ => true, fun _ => .ok [], fun _ => .ok []⟩ ⟨none⟩
    ⟨some formContentType, none, none, "", some "/getinfo", some "vm1"⟩
    (.textMsg "ephemeral"
      ("Validation Error: " ++
        "Server configuration does not include Slack signing secret. Verification skipped (INSECURE)."))
    (by rfl)

/-- C8 counterexample: a stored timestamp whose value is the empty string is
present yet not structured, but both the shared rendering rule and the status
formatter produce `"Not available"` instead of its literal (empty) string
form, because Python truthiness sends falsy values to the default branch. -/
theorem timestamp_empty_string_cex :
    formatTimestamp (PyTime.repr "") = "Not available" ∧
    ("Not available" : String) ≠ "" ∧
    check_resource_status "app1"
        [⟨some "app1", some "Failed", none, PyTime.repr ""⟩] =
      .textMsg "ephemeral"
        ("❌" ++ " " ++
          ("Resource *" ++ "app1" ++ "* requires attention. Status: *" ++
            "Failed" ++ "*.") ++ "\n" ++
          "   • Details: _" ++ "No additional details." ++ "_\n" ++
          "   • Last checked: _" ++ "Not available" ++ "_") := by
  refine ⟨rfl, by decide, ?_⟩
  rfl

/-- C8 (amended): structured timestamps render as `DD-MM-YYYY at HH:MM UTC`;
a present, unstructured, non-empty value renders as its literal string form;
an absent value — or a falsy one such as the empty string — renders as
`"Not available"`; and both formatters embed exactly this rendering in their
output. -/
theorem timestamp_rendering_rule (t : PyTime) :
    (∀ d m y hh mm, t = .dt d m y hh mm →
      formatTimestamp t =
        pad2 d ++ "-" ++ pad2 m ++ "-" ++ pad4 y ++ " at " ++ pad2 hh ++ ":" ++
          pad2 mm ++ " UTC") ∧
    (∀ s, t = .repr s → s ≠ "" → formatTimestamp t = s) ∧
    (t = .absent → formatTimestamp t = "Not available") ∧
    (t = .repr "" → formatTimestamp t = "Not available") ∧
    (∀ row : ResourceRow, row.creation_timestamp = t →
      ∃ p, resourceMessage row = p ++ formatTimestamp t ++ "_") ∧
    (∀ (name : String) (row : StatusRow) (rest : List StatusRow),
      row.last_checked = t →
      ∃ p, check_resource_status name (row :: rest) =
        .textMsg "ephemeral" (p ++ formatTimestamp t ++ "_")) := by
  refine ⟨?_, ?_, ?_, ?_, ?_, ?_⟩
  · rintro d m y hh mm rfl
    rfl
  · rintro s rfl hs
    show (if s = "" then "Not available" else s) = s
    rw [if_neg hs]
  · rintro rfl
    rfl
  · rintro rfl
    rfl
  · intro row hr
    refine ⟨"ℹ️ Information for *" ++ pyOr row.instance_name "N/A" ++ "* (ID: *" ++
      pyOr row.instance_id "N/A" ++ "*):\n" ++
      "   • Project: *" ++ pyOr row.project_id "N/A" ++ "*\n" ++
      "   • Status: *" ++ pyOr row.status "N/A" ++ "*\n" ++
      "   • Zone: *" ++ pyOr row.zone "N/A" ++ "*\n" ++
      "   • Machine Type: *" ++ pyOr row.machine_type "N/A" ++ "*\n" ++
      "   • Created/Updated: _", ?_⟩
    rw [← hr]
    rfl
  · intro name row rest hr
    refine ⟨(statusEmojiMessage name row).1 ++ " " ++ (statusEmojiMessage name row).2 ++
      "\n" ++ "   • Details: _" ++ pyOr row.details "No additional details." ++ "_\n" ++
      "   • Last checked: _", ?_⟩
    rw [← hr]
    rfl

/-- Witness for the amended C8 at a structured timestamp and at a non-empty
unstructured one, with the resource formatter embedding. -/
theorem timestamp_rendering_rule_witness :
    formatTimestamp (PyTime.dt 5 3 2024 9 7) =
      pad2 5 ++ "-" ++ pad2 3 ++ "-" ++ pad4 2024 ++ " at " ++ pad2 9 ++ ":" ++
        pad2 7 ++ " UTC" ∧
    formatTimestamp (PyTime.repr "2024-03-05") = "2024-03-05" ∧
    (∃ p, resourceMessage
        ⟨some "id1", some "vm1", none, none, none, none, PyTime.dt 5 3 2024 9 7, none⟩ =
      p ++ formatTimestamp (PyTime.dt 5 3 2024 9 7) ++ "_") :=
  ⟨(timestamp_rendering_rule (PyTime.dt 5 3 2024 9 7)).1 5 3 2024 9 7 rfl,
    (timestamp_rendering_rule (PyTime.repr "2024-03-05")).2.1 "2024-03-05" rfl (by decide),
    (timestamp_rendering_rule (PyTime.dt 5 3 2024 9 7)).2.2.2.2.1
      ⟨some "id1", some "vm1", none, none, none, none, PyTime.dt 5 3 2024 9 7, none⟩ rfl⟩

/-- C10 counterexample: `"Pending activation"`, lowered, contains no
favorable keyword — `"activation"` does not contain the substring
`"active"` — so the formatter selects the pending (hourglass) tier, not the
favorable (check-mark) tier the claim's example asserts. -/
theorem pending_activation_cex :
    strContains (statusValue
      ⟨some "db01", some "Pending activation", none, PyTime.absent⟩) "active" = false ∧
    strContains (statusValue
      ⟨some "db01", some "Pending activation", none, PyTime.absent⟩) "pending" = true ∧
    check_resource_status "db01"
        [⟨some "db01", some "Pending activation", none, PyTime.absent⟩] =
      .textMsg "ephemeral"
        ("⏳" ++ " " ++
          ("Resource *" ++ "db01" ++ "* has status: *" ++ "Pending activation" ++
            "*.") ++ "\n" ++
          "   • Details: _" ++ "No additional details." ++ "_\n" ++
          "   • Last checked: _" ++ "Not available" ++ "_") ∧
    ("⏳" : String) ≠ "✅" := by
  refine ⟨by decide, by decide, ?_, by decide⟩
  rfl

/-- C10 (amended): the favorable-tier check runs before the pending-tier
check, so any status whose lowered value contains `"active"`, `"ok"` or
`"complete"` — even if it also contains `"pending"` or `"in progress"`,
e.g. `"OK, pending restart"` — selects the check-mark tier; a `None` status
is treated as `"unknown"` and selects the unfavorable cross tier.  (The
claim's example `"Pending activation"` contains no favorable keyword and
selects the pending tier instead.) -/
theorem favorable_tier_checked_first (name : String) (row : StatusRow) :
    ((strContains (statusValue row) "active" || strContains (statusValue row) "ok" ||
        strContains (statusValue row) "complete") = true →
      (statusEmojiMessage name row).1 = "✅") ∧
    (row.current_status = none →
      statusValue row = "unknown" ∧ (statusEmojiMessage name row).1 = "❌") := by
  constructor
  · intro h
    unfold statusEmojiMessage
    dsimp only
    rw [if_pos h]
  · intro h
    have hu : statusValue row = "unknown" := by
      unfold statusValue
      rw [h]
    refine ⟨hu, ?_⟩
    unfold statusEmojiMessage
    dsimp only
    rw [hu, if_neg (by decide), if_neg (by decide)]

/-- Witness for the amended C10: `"OK, pending restart"` contains both a
favorable and a pending keyword and still gets the check mark; a `None`
status gets the cross. -/
theorem favorable_tier_checked_first_witness :
    (statusEmojiMessage "w1"
      ⟨some "w1", some "OK, pending restart", none, PyTime.absent⟩).1 = "✅" ∧
    statusValue ⟨some "w2", none, none, PyTime.absent⟩ = "unknown" ∧
    (statusEmojiMessage "w2" ⟨some "w2", none, none, PyTime.absent⟩).1 = "❌" :=
  ⟨(favorable_tier_checked_first "w1"
      ⟨some "w1", some "OK, pending restart", none, PyTime.absent⟩).1 (by decide),
    ((favorable_tier_checked_first "w2"
      ⟨some "w2", none, none, PyTime.absent⟩).2 rfl).1,
    ((favorable_tier_checked_first "w2"
      ⟨some "w2", none, none, PyTime.absent⟩).2 rfl).2⟩

end CloudFunction
